import Mathlib

/-!
Verification of `diagrams/architecture.py`: a straight-line script that
declares a fixed AWS multi-region topology (nodes grouped into nested
clusters, directed edges) using the `diagrams` library and submits it to
the library's renderer.

The embedding models the library's graph-building semantics explicitly:
a `Diagram` accumulates nodes, edges and clusters; `with Cluster(...)`
blocks are `openCluster`/`closeCluster` pairs driven by a stack of open
clusters; `a >> b` is `addEdge`; exiting the `with Diagram(...)` block
submits the description to the renderer (`finishDiagram`). Every step is
also recorded in an event trace so that ordering properties of the build
can be stated. Node identity is creation order; the library's internal
random node identifier is modelled as an external `supply` so that
independence from run-varying data can be stated.
-/

/-- The node categories instantiated by the script (one per imported
`diagrams` class). -/
inductive NodeType where
  | Organizations
  | OrganizationsAccount
  | EC2ContainerRegistry
  | TransitGateway
  | TransitGatewayAttachment
  | VPC
  | ALB
  | ElasticKubernetesService
  | RDS
  | Route53HostedZone
  | Route53
  | CertificateManager
deriving DecidableEq

/-- A declared node: creation index, the run-varying internal render
identifier, its category, its display label, and the cluster it was
declared inside (`none` = diagram root). -/
structure Node where
  idx : Nat
  renderId : String
  ntype : NodeType
  label : String
  parent : Option Nat
deriving DecidableEq

/-- A declared cluster: its creation index, its name, and the enclosing
cluster open at declaration time (`none` = diagram root). -/
structure ClusterDecl where
  cid : Nat
  name : String
  parent : Option Nat
deriving DecidableEq

/-- Build events, in the order the script performs them. -/
inductive Ev where
  | nodeDecl (t : NodeType)
  | clusterOpen (name : String)
  | clusterClose
  | edgeDecl (a b : Nat)
  | render
deriving DecidableEq

/-- The diagram under construction: title, the `show` flag passed to the
`Diagram` constructor, the accumulated nodes, edges and clusters, the
stack of currently open clusters, and the event trace. -/
structure Diagram where
  title : String
  showFlag : Bool
  nodes : List Node
  edges : List (Nat × Nat)
  clusters : List ClusterDecl
  stack : List Nat
  trace : List Ev
deriving DecidableEq

/-- Entering the `with Diagram(title, show=flag)` block: an empty
description. -/
def Diagram.start (title : String) (flag : Bool) : Diagram :=
  ⟨title, flag, [], [], [], [], []⟩

/-- Declaring a node (instantiating a `diagrams` node class): it is
appended with the next creation index, its render identifier drawn from
the external supply, and attached to the innermost open cluster. -/
def newNode (supply : Nat → String) (t : NodeType) (label : String)
    (s : Diagram) : Nat × Diagram :=
  let i := s.nodes.length
  (i, { s with
        nodes := s.nodes ++ [⟨i, supply i, t, label, s.stack.head?⟩],
        trace := s.trace ++ [Ev.nodeDecl t] })

/-- Entering a `with Cluster(name)` block: the cluster's parent is the
innermost cluster open at that point, and it becomes the innermost open
cluster. -/
def openCluster (name : String) (s : Diagram) : Diagram :=
  let c := s.clusters.length
  { s with
    clusters := s.clusters ++ [⟨c, name, s.stack.head?⟩],
    stack := c :: s.stack,
    trace := s.trace ++ [Ev.clusterOpen name] }

/-- Leaving a `with Cluster(...)` block. -/
def closeCluster (s : Diagram) : Diagram :=
  { s with stack := s.stack.tail, trace := s.trace ++ [Ev.clusterClose] }

/-- The `a >> b` operator: records the directed edge. -/
def addEdge (a b : Nat) (s : Diagram) : Diagram :=
  { s with edges := s.edges ++ [(a, b)],
           trace := s.trace ++ [Ev.edgeDecl a b] }

/-- Leaving the `with Diagram(...)` block: the finished description is
submitted to the renderer. -/
def finishDiagram (s : Diagram) : Diagram :=
  { s with trace := s.trace ++ [Ev.render] }

/-- The script `architecture.py`, transcribed statement by statement.
The Python variable names are kept, including the rebindings of `acm`,
`lb`, `eks` and `db` (Lean `let` shadowing mirrors Python rebinding).
`supply` stands for the library's run-varying internal node identifiers;
the script itself reads no input. -/
def runScript (supply : Nat → String) : Diagram :=
  let s := Diagram.start "Multi region workload" false
  let (org, s) := newNode supply NodeType.Organizations "AWS Organizations" s
  let s := openCluster "Shared Account" s
  let (route53_main, s) := newNode supply NodeType.Route53HostedZone "Route 53 Public Hosted Zone" s
  let (acm, s) := newNode supply NodeType.CertificateManager "Certificate Manager" s
  let (ecr, s) := newNode supply NodeType.EC2ContainerRegistry "ECR with multiregion replication" s
  let (tgw, s) := newNode supply NodeType.TransitGateway "Transit Gateway" s
  let (shared_acc, s) := newNode supply NodeType.OrganizationsAccount "Shared account" s
  let (tgw_attachment_shared, s) := newNode supply NodeType.TransitGatewayAttachment "Transit Gateway Attachment" s
  let (vpc_shared, s) := newNode supply NodeType.VPC "VPC" s
  let s := openCluster "Private Subnet" s
  let (lb, s) := newNode supply NodeType.ALB "Application Load Balancer" s
  let (eks, s) := newNode supply NodeType.ElasticKubernetesService "web services" s
  let s := addEdge lb eks s
  let s := closeCluster s
  let s := closeCluster s
  let s := openCluster "Workload Account" s
  let (workload_acc, s) := newNode supply NodeType.OrganizationsAccount "Workload account" s
  let (acm, s) := newNode supply NodeType.CertificateManager "Certificate Manager" s
  let (route53_workload, s) := newNode supply NodeType.Route53HostedZone "Route 53 Public Hosted Zone" s
  let s := openCluster "us-east-1" s
  let (tgw_attachment_workload_region_1, s) := newNode supply NodeType.TransitGatewayAttachment "Transit Gateway Attachment" s
  let (vpc_workload_region_1, s) := newNode supply NodeType.VPC "VPC" s
  let s := openCluster "Public Subnet" s
  let (lb, s) := newNode supply NodeType.ALB "Application Load Balancer" s
  let (eks, s) := newNode supply NodeType.ElasticKubernetesService "web services" s
  let (db, s) := newNode supply NodeType.RDS "Aurora Global Database" s
  let s := addEdge lb eks s
  let s := addEdge eks db s
  let s := closeCluster s
  let s := closeCluster s
  let s := openCluster "us-west-2" s
  let (tgw_attachment_workload_region_2, s) := newNode supply NodeType.TransitGatewayAttachment "Transit Gateway Attachment" s
  let (vpc_workload_region_2, s) := newNode supply NodeType.VPC "VPC" s
  let s := openCluster "Public Subnet" s
  let (lb, s) := newNode supply NodeType.ALB "Application Load Balancer" s
  let (eks, s) := newNode supply NodeType.ElasticKubernetesService "web services" s
  let (db, s) := newNode supply NodeType.RDS "Aurora Global Database" s
  let s := addEdge lb eks s
  let s := addEdge eks db s
  let s := closeCluster s
  let s := closeCluster s
  let s := closeCluster s
  let s := addEdge tgw tgw_attachment_workload_region_1 s
  let s := addEdge tgw_attachment_workload_region_1 vpc_workload_region_1 s
  let s := addEdge tgw tgw_attachment_workload_region_2 s
  let s := addEdge tgw_attachment_workload_region_2 vpc_workload_region_2 s
  let s := addEdge tgw tgw_attachment_shared s
  let s := addEdge tgw_attachment_shared vpc_shared s
  let s := addEdge route53_main route53_workload s
  let s := addEdge org workload_acc s
  let s := addEdge org shared_acc s
  finishDiagram s

/-- The built diagram, with a canonical identifier supply. -/
def architecture : Diagram := runScript (fun _ => "")

/-- The number of nodes of a given category in a diagram. -/
def countType (d : Diagram) (t : NodeType) : Nat :=
  d.nodes.countP (fun n => decide (n.ntype = t))

/-- The category of the node with a given creation index, if any. -/
def typeAt (d : Diagram) (i : Nat) : Option NodeType :=
  (d.nodes.get? i).map (fun n => n.ntype)

/-- Number of edges entering node `i`. -/
def inDegree (d : Diagram) (i : Nat) : Nat :=
  d.edges.countP (fun e => e.2 == i)

/-- Number of edges leaving node `i`. -/
def outDegree (d : Diagram) (i : Nat) : Nat :=
  d.edges.countP (fun e => e.1 == i)

/-- The run-invariant (logical) content of a diagram: the nodes without
their run-varying render identifiers, the edges, and the clusters. -/
def logicalView (d : Diagram) :
    List (Nat × NodeType × String × Option Nat) × List (Nat × Nat) ×
      List ClusterDecl :=
  (d.nodes.map (fun n => (n.idx, n.ntype, n.label, n.parent)), d.edges,
    d.clusters)

/-- The parent of cluster `i`, read off the declaration list. -/
def parentOf (d : Diagram) (i : Nat) : Option Nat :=
  (d.clusters.find? (fun c => c.cid == i)).bind (fun c => c.parent)

/-- The chain of strict ancestors of cluster `i`, followed through
`parentOf` with fuel bounded by the number of clusters. -/
def ancestorChain (d : Diagram) : Nat → Nat → List Nat
  | 0, _ => []
  | fuel + 1, i =>
    match parentOf d i with
    | none => []
    | some p => p :: ancestorChain d fuel p

/-- Whether cluster `a` is a strict ancestor of cluster `b`. -/
def isAncestorB (d : Diagram) (a b : Nat) : Bool :=
  (ancestorChain d d.clusters.length b).contains a

/-- No cluster of the diagram is its own strict ancestor. -/
def selfAncestorFree (d : Diagram) : Bool :=
  d.clusters.all (fun c => !(isAncestorB d c.cid c.cid))

/-- Checks that the trace is phased as the spec orders it: declaration
events (nodes, cluster opens/closes) only while no edge has been
declared yet (`phase = 0`), then edge declarations (`phase = 1`), then
rendering (`phase = 2`). -/
def phaseCheck (phase : Nat) : List Ev → Bool
  | [] => true
  | Ev.nodeDecl _ :: r => decide (phase = 0) && phaseCheck phase r
  | Ev.clusterOpen _ :: r => decide (phase = 0) && phaseCheck phase r
  | Ev.clusterClose :: r => decide (phase = 0) && phaseCheck phase r
  | Ev.edgeDecl _ _ :: r => decide (phase ≤ 1) && phaseCheck 1 r
  | Ev.render :: r => phaseCheck 2 r

/-- Whether the whole build trace declares all nodes and clusters first,
then all edges, then renders. -/
def strictlyPhased (d : Diagram) : Bool := phaseCheck 0 d.trace

/-- Checks that every edge declaration in the trace refers only to nodes
already declared (`n` counts the node declarations seen so far). -/
def edgesAfterEndpoints (n : Nat) : List Ev → Bool
  | [] => true
  | Ev.nodeDecl _ :: r => edgesAfterEndpoints (n + 1) r
  | Ev.edgeDecl a b :: r =>
    decide (a < n) && decide (b < n) && edgesAfterEndpoints n r
  | Ev.clusterOpen _ :: r => edgesAfterEndpoints n r
  | Ev.clusterClose :: r => edgesAfterEndpoints n r
  | Ev.render :: r => edgesAfterEndpoints n r

/-- The build trace of the script, written out as the literal sequence
of its fifty-two events. -/
def archTrace : List Ev :=
  [Ev.nodeDecl NodeType.Organizations,
   Ev.clusterOpen "Shared Account",
   Ev.nodeDecl NodeType.Route53HostedZone,
   Ev.nodeDecl NodeType.CertificateManager,
   Ev.nodeDecl NodeType.EC2ContainerRegistry,
   Ev.nodeDecl NodeType.TransitGateway,
   Ev.nodeDecl NodeType.OrganizationsAccount,
   Ev.nodeDecl NodeType.TransitGatewayAttachment,
   Ev.nodeDecl NodeType.VPC,
   Ev.clusterOpen "Private Subnet",
   Ev.nodeDecl NodeType.ALB,
   Ev.nodeDecl NodeType.ElasticKubernetesService,
   Ev.edgeDecl 8 9,
   Ev.clusterClose,
   Ev.clusterClose,
   Ev.clusterOpen "Workload Account",
   Ev.nodeDecl NodeType.OrganizationsAccount,
   Ev.nodeDecl NodeType.CertificateManager,
   Ev.nodeDecl NodeType.Route53HostedZone,
   Ev.clusterOpen "us-east-1",
   Ev.nodeDecl NodeType.TransitGatewayAttachment,
   Ev.nodeDecl NodeType.VPC,
   Ev.clusterOpen "Public Subnet",
   Ev.nodeDecl NodeType.ALB,
   Ev.nodeDecl NodeType.ElasticKubernetesService,
   Ev.nodeDecl NodeType.RDS,
   Ev.edgeDecl 15 16,
   Ev.edgeDecl 16 17,
   Ev.clusterClose,
   Ev.clusterClose,
   Ev.clusterOpen "us-west-2",
   Ev.nodeDecl NodeType.TransitGatewayAttachment,
   Ev.nodeDecl NodeType.VPC,
   Ev.clusterOpen "Public Subnet",
   Ev.nodeDecl NodeType.ALB,
   Ev.nodeDecl NodeType.ElasticKubernetesService,
   Ev.nodeDecl NodeType.RDS,
   Ev.edgeDecl 20 21,
   Ev.edgeDecl 21 22,
   Ev.clusterClose,
   Ev.clusterClose,
   Ev.clusterClose,
   Ev.edgeDecl 4 13,
   Ev.edgeDecl 13 14,
   Ev.edgeDecl 4 18,
   Ev.edgeDecl 18 19,
   Ev.edgeDecl 4 6,
   Ev.edgeDecl 6 7,
   Ev.edgeDecl 1 12,
   Ev.edgeDecl 0 10,
   Ev.edgeDecl 0 5,
   Ev.render]

/-- Modelled from the spec: the Renderer's failure modes. The spec's
error taxonomy has exactly two conditions — the renderer cannot be
invoked, or the cluster nesting is malformed (a cluster is its own
ancestor); the renderer itself is a third-party collaborator whose code
is outside the repository. -/
inductive RenderError where
  | rendererUnavailable
  | malformedNesting
deriving DecidableEq

/-- Modelled from the spec: submitting a diagram to the Renderer. The
renderer rejects malformed nesting, fails when its backend is
unavailable, and otherwise writes an image file named after the diagram
title. -/
def render (avail : Bool) (d : Diagram) : Except RenderError String :=
  if selfAncestorFree d then
    if avail then Except.ok d.title else Except.error RenderError.rendererUnavailable
  else Except.error RenderError.malformedNesting

/-- Observable side effects of a run, per the spec: a file write named
after the title, plus an on-screen display only when the output-mode
flag requests it. -/
inductive Effect where
  | fileWrite (name : String)
  | display
deriving DecidableEq

/-- Modelled from the spec: the observable side effects of submitting
the diagram, as a function of its output-mode flag. -/
def observableEffects (d : Diagram) : List Effect :=
  if d.showFlag then [Effect.fileWrite d.title, Effect.display]
  else [Effect.fileWrite d.title]

/-- Modelled from the spec: node removal with the cascade policy — the
node is removed together with every edge that uses it (the repository's
builder itself declares nodes only and never removes one). -/
def removeNode (d : Diagram) (i : Nat) : Diagram :=
  { d with
    nodes := d.nodes.filter (fun n => n.idx != i),
    edges := d.edges.filter (fun e => e.1 != i && e.2 != i) }

/-- C1: the built topology (with DNS/ACM, the script as written) has
exactly 1 Organizations, 2 OrganizationsAccount, 1 EC2ContainerRegistry,
1 TransitGateway, 3 VPC, 3 TransitGatewayAttachment, 3 ALB,
3 ElasticKubernetesService, 2 RDS, 2 Route53HostedZone and
2 CertificateManager nodes, and no other nodes (the counts sum to the
total of 23). -/
theorem node_multiset_with_dns_acm :
    countType architecture NodeType.Organizations = 1 ∧
    countType architecture NodeType.OrganizationsAccount = 2 ∧
    countType architecture NodeType.EC2ContainerRegistry = 1 ∧
    countType architecture NodeType.TransitGateway = 1 ∧
    countType architecture NodeType.VPC = 3 ∧
    countType architecture NodeType.TransitGatewayAttachment = 3 ∧
    countType architecture NodeType.ALB = 3 ∧
    countType architecture NodeType.ElasticKubernetesService = 3 ∧
    countType architecture NodeType.RDS = 2 ∧
    countType architecture NodeType.Route53HostedZone = 2 ∧
    countType architecture NodeType.CertificateManager = 2 ∧
    architecture.nodes.length = 23 := by decide

/-- C2: the built graph contains exactly the fourteen declared directed
edges, in declaration order, and exactly the twenty-three declared
nodes; the node categories at each edge endpoint are the declared ones
(org→each account, tgw→each attachment→its VPC, lb→eks in the shared
subnet, lb→eks→db in each workload region, route53_main→
route53_workload). -/
theorem edge_set_exact :
    architecture.edges =
      [(8, 9), (15, 16), (16, 17), (20, 21), (21, 22), (4, 13), (13, 14),
       (4, 18), (18, 19), (4, 6), (6, 7), (1, 12), (0, 10), (0, 5)] ∧
    architecture.edges.length = 14 ∧
    architecture.nodes.length = 23 ∧
    typeAt architecture 0 = some NodeType.Organizations ∧
    typeAt architecture 5 = some NodeType.OrganizationsAccount ∧
    typeAt architecture 10 = some NodeType.OrganizationsAccount ∧
    typeAt architecture 4 = some NodeType.TransitGateway ∧
    typeAt architecture 6 = some NodeType.TransitGatewayAttachment ∧
    typeAt architecture 13 = some NodeType.TransitGatewayAttachment ∧
    typeAt architecture 18 = some NodeType.TransitGatewayAttachment ∧
    typeAt architecture 7 = some NodeType.VPC ∧
    typeAt architecture 14 = some NodeType.VPC ∧
    typeAt architecture 19 = some NodeType.VPC ∧
    typeAt architecture 8 = some NodeType.ALB ∧
    typeAt architecture 15 = some NodeType.ALB ∧
    typeAt architecture 20 = some NodeType.ALB ∧
    typeAt architecture 9 = some NodeType.ElasticKubernetesService ∧
    typeAt architecture 16 = some NodeType.ElasticKubernetesService ∧
    typeAt architecture 21 = some NodeType.ElasticKubernetesService ∧
    typeAt architecture 17 = some NodeType.RDS ∧
    typeAt architecture 22 = some NodeType.RDS ∧
    typeAt architecture 1 = some NodeType.Route53HostedZone ∧
    typeAt architecture 12 = some NodeType.Route53HostedZone := by decide

/-- C3 counterexample: the build is not phased as "all nodes and
clusters first, then all edges": the edge lb→eks of the shared Private
Subnet is declared at trace position 12, before the Workload account
node declared at position 16, so the phase check fails. -/
theorem build_not_strictly_phased :
    strictlyPhased architecture = false ∧
    architecture.trace.get? 12 = some (Ev.edgeDecl 8 9) ∧
    architecture.trace.get? 16 =
      some (Ev.nodeDecl NodeType.OrganizationsAccount) := by decide

/-- C3 amended: the build is a single straight-line fixed sequence of
declarations (the same literal trace for every run, with no branching,
looping or computed structure), submission to the Renderer is its last
event and happens exactly once, and every edge is declared after both
of its endpoint nodes — but node and edge declarations interleave (the
intra-cluster edges precede later node declarations) rather than all
nodes coming before all edges. -/
theorem build_straight_line_interleaved :
    (∀ supply : Nat → String, (runScript supply).trace = archTrace) ∧
    archTrace.getLast? = some Ev.render ∧
    archTrace.countP (fun e => decide (e = Ev.render)) = 1 ∧
    edgesAfterEndpoints 0 archTrace = true := by
  refine ⟨?_, by decide, by decide, by decide⟩
  intro supply
  dsimp only [runScript, newNode, openCluster, closeCluster, addEdge,
    finishDiagram, Diagram.start]
  simp [archTrace]

/-- C4: the builder takes no input, and the logical graph structure it
produces — node set (index, category, label, parent) and edge set — is
identical across any two runs, whatever run-varying internal
identifiers the library draws. -/
theorem builder_structure_deterministic :
    ∀ s₁ s₂ : Nat → String,
      logicalView (runScript s₁) = logicalView (runScript s₂) := by
  intro s₁ s₂
  dsimp only [logicalView, runScript, newNode, openCluster, closeCluster,
    addEdge, finishDiagram, Diagram.start]
  simp

/-- C5: cluster nesting in the built diagram forms a tree: every
cluster's single parent field is either the diagram root or refers to
exactly one earlier-declared cluster (so no cluster is shared between
two parents), and no cluster is its own ancestor. -/
theorem cluster_nesting_tree :
    selfAncestorFree architecture = true ∧
    architecture.clusters.all
      (fun c =>
        match c.parent with
        | none => true
        | some p =>
          decide (p < c.cid) &&
            (architecture.clusters.countP (fun c2 => c2.cid == p) == 1))
      = true := by decide

/-- C6: every node of the built diagram is placed under exactly one
parent in the final cluster tree — its single parent field is either
the diagram root or refers to exactly one declared cluster — so no
node sits under two different clusters simultaneously. -/
theorem node_unique_parent :
    architecture.nodes.all
      (fun n =>
        match n.parent with
        | none => true
        | some p =>
          architecture.clusters.countP (fun c => c.cid == p) == 1)
      = true := by decide

/-- C7: malformed-nesting failures are unreachable for this program:
the built cluster structure has no cluster that is its own ancestor, so
submitting it to the Renderer either succeeds or fails with the
renderer-unavailable error only — the malformed-nesting branch is never
taken. -/
theorem malformed_nesting_unreachable :
    selfAncestorFree architecture = true ∧
    (∀ avail : Bool,
      render avail architecture =
        if avail then Except.ok architecture.title
        else Except.error RenderError.rendererUnavailable) := by
  refine ⟨by decide, ?_⟩
  intro avail
  cases avail <;> rfl

/-- C8: the diagram is submitted in render-to-file mode (the
output-mode flag is false), so the only observable side effect of a
run is writing the image file named after the title. -/
theorem render_to_file_mode_only_effect :
    architecture.showFlag = false ∧
    observableEffects architecture =
      [Effect.fileWrite "Multi region workload"] := by
  exact ⟨rfl, rfl⟩

/-- C9: the node-removal operation follows one consistent policy —
removing a node removes every dangling edge: after `removeNode d i`, no
remaining node has index `i` and no remaining edge uses `i` as an
endpoint, for every diagram and every index. -/
theorem remove_node_cascades :
    ∀ (d : Diagram) (i : Nat),
      ((removeNode d i).edges.all (fun e => e.1 != i && e.2 != i)) = true ∧
      ((removeNode d i).nodes.all (fun n => n.idx != i)) = true := by
  intro d i
  refine ⟨?_, ?_⟩ <;>
  · rw [List.all_eq_true]
    intro x hx
    exact (List.mem_filter.mp hx).2

/-- C10: the two CertificateManager nodes (creation indices 2 and 11,
one in the Shared Account cluster and one in the Workload Account
cluster, reflecting the rebinding of `acm`) are isolated: each has
in-degree zero and out-degree zero. -/
theorem certificate_manager_nodes_isolated :
    ((architecture.nodes.filter
        (fun n => decide (n.ntype = NodeType.CertificateManager))).map
      (fun n => n.idx)) = [2, 11] ∧
    (architecture.nodes.get? 2).map (fun n => n.parent) = some (some 0) ∧
    (architecture.nodes.get? 11).map (fun n => n.parent) = some (some 2) ∧
    (architecture.clusters.get? 0).map (fun c => c.name) =
      some "Shared Account" ∧
    (architecture.clusters.get? 2).map (fun c => c.name) =
      some "Workload Account" ∧
    inDegree architecture 2 = 0 ∧ outDegree architecture 2 = 0 ∧
    inDegree architecture 11 = 0 ∧ outDegree architecture 11 = 0 := by
  refine ⟨by decide, by decide, by decide, rfl, rfl, by decide, by decide,
    by decide, by decide⟩
